import Mathlib

/-!
Verification of the cryptoMarketAIAnalyzer publishers.

This file shallowly embeds the two publish engines of the repository:

* `WXPublisher` (`src/services/WXPublisher.py`) — the credential-based HTTP
  API publisher (token cache, draft upload, direct publish, publish-status
  polling, image upload);
* `BinancePublisher` (`src/services/BinancePublisher.py`) — the
  browser-session publisher (login verification heuristics, the
  push-to-community state machine with structured error results, content
  preprocessing).

Pure Python computations are translated into executable Lean functions over
`List Char` (Python unicode text) and `List Nat` (Python bytes).  Effectful
steps (HTTP requests, Playwright calls) are made explicit: each request is a
record the function receives (its response) and the network activity is
returned as an explicit trace / request counter; Python exceptions are
modelled with `Except`.

Library collaborators used by the code and modelled here:
* `html.unescape` (Python stdlib) — modelled by `htmlUnescape`, covering
  numeric character references and the core named entities, and — exactly as
  in CPython — returning the input unchanged when it contains no ampersand;
* `str(b)` on a `bytes` value — Python returns the `repr` of the bytes
  object; modelled by `pyReprBytes`.
-/

namespace CMarket

/-! ## ContentNormalizer: control-character stripping

`src/services/WXPublisher.py` line 116 and `src/services/BinancePublisher.py`
line 392:
`''.join(ch for ch in article if ord(ch) >= 32 or ch in '\n\t\r')`. -/

/-- The predicate of the Python generator expression: keep `ch` iff
`ord(ch) >= 32 or ch in '\n\t\r'`. -/
def keepChar (c : Char) : Bool :=
  decide (32 ≤ c.toNat) || (c == Char.ofNat 10) || (c == Char.ofNat 9) || (c == Char.ofNat 13)

/-- The `''.join(... if ...)` control-character filter. -/
def stripControl (s : List Char) : List Char :=
  s.filter keepChar

/-! ## Model of the stdlib collaborator `html.unescape`

CPython's `html.unescape(s)` first checks `if '&' not in s: return s`; only
strings containing an ampersand are rewritten, by replacing character
references.  The model below implements numeric character references
(`&#ddd;`, `&#xhh;`) and the core named entities (with a terminating
semicolon); every property proved about it in this file depends only on the
ampersand early-return, which is exactly CPython's behaviour. -/

/-- The ampersand character. -/
def ampChar : Char := Char.ofNat 38

/-- Single-quote character (apostrophe). -/
def squoteChar : Char := Char.ofNat 39

/-- Double-quote character. -/
def dquoteChar : Char := Char.ofNat 34

/-- Backslash character. -/
def bslashChar : Char := Char.ofNat 92

/-- Semicolon character. -/
def semiChar : Char := Char.ofNat 59

/-- Core named character references (with semicolon) and their replacements. -/
def namedCharrefs : List (List Char × List Char) :=
  [("amp;".data, [ampChar]),
   ("lt;".data, "<".data),
   ("gt;".data, ">".data),
   ("quot;".data, [dquoteChar]),
   ("apos;".data, [squoteChar]),
   ("nbsp;".data, [Char.ofNat 160])]

/-- Decimal value of a digit character. -/
def digitVal (c : Char) : Nat := c.toNat - 48

/-- Hexadecimal value of a hex-digit character. -/
def hexVal (c : Char) : Nat :=
  if c.toNat ≤ 57 then c.toNat - 48
  else if c.toNat ≤ 70 then c.toNat - 55
  else c.toNat - 87

/-- A numeric character reference resolves to the scalar value when valid,
to U+FFFD otherwise (as CPython does for out-of-range references). -/
def charOfCodepoint (n : Nat) : Char :=
  if n.isValidChar then Char.ofNat n else Char.ofNat 65533

/-- Hexadecimal digit test (both cases). -/
def isHexDigit (c : Char) : Bool :=
  (decide (48 ≤ c.toNat) && decide (c.toNat ≤ 57)) ||
  (decide (65 ≤ c.toNat) && decide (c.toNat ≤ 70)) ||
  (decide (97 ≤ c.toNat) && decide (c.toNat ≤ 102))

/-- Try to match a named character reference at the head of `cs`; returns the
replacement text and the number of characters consumed. -/
def matchNamed : List (List Char × List Char) → List Char → Option (List Char × Nat)
  | [], _ => none
  | (name, rep) :: rest, cs =>
    if name.isPrefixOf cs then some (rep, name.length) else matchNamed rest cs

/-- Try to match a character reference (the part after `&`); returns the
replacement text and the number of characters consumed. -/
def matchCharref (cs : List Char) : Option (List Char × Nat) :=
  match cs with
  | c :: rest =>
    if c = Char.ofNat 35 then      -- '#'
      match rest with
      | x :: rest2 =>
        if x = Char.ofNat 120 ∨ x = Char.ofNat 88 then   -- 'x' or 'X'
          let digits := rest2.takeWhile isHexDigit
          let after := rest2.drop digits.length
          if digits.isEmpty then none
          else
            let n := digits.foldl (fun acc d => 16 * acc + hexVal d) 0
            let semi := if after.head? = some semiChar then 1 else 0
            some ([charOfCodepoint n], 2 + digits.length + semi)
        else
          let digits := rest.takeWhile Char.isDigit
          let after := rest.drop digits.length
          if digits.isEmpty then none
          else
            let n := digits.foldl (fun acc d => 10 * acc + digitVal d) 0
            let semi := if after.head? = some semiChar then 1 else 0
            some ([charOfCodepoint n], 1 + digits.length + semi)
      | [] => none
    else matchNamed namedCharrefs (c :: rest)
  | [] => none

/-- Fuel-driven rewriting loop of the unescape model; each step consumes at
least one character, so fuel equal to the input length always suffices. -/
def unescapeGo : Nat → List Char → List Char
  | 0, cs => cs
  | _ + 1, [] => []
  | fuel + 1, c :: rest =>
    if c = ampChar then
      match matchCharref rest with
      | some (rep, n) => rep ++ unescapeGo fuel (rest.drop n)
      | none => c :: unescapeGo fuel rest
    else
      c :: unescapeGo fuel rest

/-- Model of Python `html.unescape`: identity on ampersand-free input (the
CPython early return), character-reference replacement otherwise. -/
def htmlUnescape (s : List Char) : List Char :=
  if s.contains ampChar then unescapeGo s.length s else s

/-! ## Model of Python values and `str()` / `repr()` on bytes -/

/-- A Python value that may reach the preprocessors: unicode text or bytes. -/
inductive PyText where
  | str (s : List Char)
  | bytes (bs : List Nat)
deriving DecidableEq

/-- Python truthiness of text/bytes: empty is falsy. -/
def pyTruthy : PyText → Bool
  | .str s => !s.isEmpty
  | .bytes bs => !bs.isEmpty

/-- Lowercase hexadecimal digit for `n < 16`. -/
def hexDigitChar (n : Nat) : Char :=
  if n < 10 then Char.ofNat (48 + n) else Char.ofNat (87 + n)

/-- One byte of a CPython bytes repr, given the chosen quote character:
`\t`, `\n`, `\r`, backslash and the quote are escaped, other printable ASCII
is literal, everything else becomes `\xhh` (lowercase). -/
def reprByte (quote : Char) (b : Nat) : List Char :=
  if b = 9 then [bslashChar, Char.ofNat 116]
  else if b = 10 then [bslashChar, Char.ofNat 110]
  else if b = 13 then [bslashChar, Char.ofNat 114]
  else if b = 92 then [bslashChar, bslashChar]
  else if b = quote.toNat then [bslashChar, quote]
  else if 32 ≤ b ∧ b ≤ 126 then [Char.ofNat b]
  else [bslashChar, Char.ofNat 120, hexDigitChar (b / 16), hexDigitChar (b % 16)]

/-- CPython `repr` of a bytes object (this is also `str(b)` for bytes `b`):
`b'...'`, using double quotes only when the bytes contain a single quote and
no double quote. -/
def pyReprBytes (bs : List Nat) : List Char :=
  let q := if bs.contains 39 && !(bs.contains 34) then dquoteChar else squoteChar
  Char.ofNat 98 :: q :: (bs.map (reprByte q)).flatten ++ [q]

/-! ## The two preprocessors

`WXPublisher._preprocess_article` (lines 80–123) and
`BinancePublisher._preprocess_content` (lines 366–399).  Both begin with
`if not x: return ""` and then `if not isinstance(x, str): x = str(x)` —
so a bytes value is coerced to its repr string *before* the
`isinstance(x, bytes)` decode branch is reached, leaving that branch
unreachable.  The embedding reflects this faithfully.  The UTF-8
encode/decode self-check of the WX version never fails on a unicode string
made of scalar values (the only strings representable here), and the
trailing has-Chinese heuristic only logs, so both functions reduce to:
coerce → HTML-unescape → strip control characters. -/

/-- `WXPublisher._preprocess_article`. -/
def preprocessArticle (v : PyText) : List Char :=
  if !pyTruthy v then []
  else
    let article : List Char :=
      match v with
      | .str s => s
      | .bytes bs => pyReprBytes bs
    stripControl (htmlUnescape article)

/-- `BinancePublisher._preprocess_content`. -/
def preprocessContent (v : PyText) : List Char :=
  if !pyTruthy v then []
  else
    let content : List Char :=
      match v with
      | .str s => s
      | .bytes bs => pyReprBytes bs
    stripControl (htmlUnescape content)

/-! ## A reference UTF-8 decoder (what the dead decode branch would do) -/

/-- Continuation-byte test. -/
def isCont (b : Nat) : Bool := decide (128 ≤ b) && decide (b < 192)

/-- Fuel-driven strict UTF-8 decoder; fuel equal to the byte-list length
always suffices. -/
def utf8DecodeGo : Nat → List Nat → Option (List Char)
  | _, [] => some []
  | 0, _ :: _ => none
  | fuel + 1, b0 :: rest =>
    if b0 < 128 then
      (utf8DecodeGo fuel rest).map (fun cs => charOfCodepoint b0 :: cs)
    else if 194 ≤ b0 ∧ b0 ≤ 223 then
      match rest with
      | b1 :: rest2 =>
        if isCont b1 then
          (utf8DecodeGo fuel rest2).map
            (fun cs => charOfCodepoint ((b0 - 192) * 64 + (b1 - 128)) :: cs)
        else none
      | _ => none
    else if 224 ≤ b0 ∧ b0 ≤ 239 then
      match rest with
      | b1 :: b2 :: rest2 =>
        if isCont b1 && isCont b2
            && !(b0 = 224 && b1 < 160)          -- overlong
            && !(b0 = 237 && 160 ≤ b1) then     -- surrogates
          (utf8DecodeGo fuel rest2).map
            (fun cs =>
              charOfCodepoint ((b0 - 224) * 4096 + (b1 - 128) * 64 + (b2 - 128)) :: cs)
        else none
      | _ => none
    else if 240 ≤ b0 ∧ b0 ≤ 244 then
      match rest with
      | b1 :: b2 :: b3 :: rest2 =>
        if isCont b1 && isCont b2 && isCont b3
            && !(b0 = 240 && b1 < 144)
            && !(b0 = 244 && 144 ≤ b1) then
          (utf8DecodeGo fuel rest2).map
            (fun cs =>
              charOfCodepoint
                ((b0 - 240) * 262144 + (b1 - 128) * 4096 + (b2 - 128) * 64 + (b3 - 128)) :: cs)
        else none
      | _ => none
    else none

/-- Strict UTF-8 decoding of a byte list (Python `bs.decode('utf-8')`). -/
def utf8Decode (bs : List Nat) : Option (List Char) :=
  utf8DecodeGo bs.length bs

/-! ## WXPublisher: the access-token cache

`WXPublisher.ensure_access_token` (lines 54–78).  The cache is
`self.access_token : Optional[WeixinToken]`; a `WeixinToken` stores the value
and `expires_at = now + expires_in` (seconds).  The cache is reused when
`expires_at > now + timedelta(minutes=1)` — a 60-second safety margin.  On a
miss the code issues one GET against the token endpoint; the response either
carries `access_token`/`expires_in` (cache replaced wholesale, value
returned) or not (exception raised, cache untouched).  Time is modelled in
seconds as `Int`; the GET is modelled by receiving the endpoint's response
and reporting the number of token-endpoint requests performed. -/

/-- The cached token record (`WeixinToken`): value and absolute expiry. -/
structure WeixinTok where
  accessToken : String
  expiresAt : Int
deriving DecidableEq

/-- The token endpoint's JSON response: `access_token` (absent on failure)
and `expires_in` seconds. -/
structure TokenResponse where
  access_token : Option String
  expires_in : Int
deriving DecidableEq

/-- The cache-hit condition of line 57–58:
`self.access_token and self.access_token.expires_at > now + timedelta(minutes=1)`. -/
def tokenCacheValid (cache : Option WeixinTok) (now : Int) : Bool :=
  match cache with
  | some t => decide (now + 60 < t.expiresAt)
  | none => false

/-- The cache-miss path of `ensure_access_token`: one GET against the token
endpoint; on success the cache is replaced with
`{value, expiresAt = now + expiresIn}`; on a bad response the exception
propagates and the cache is unchanged.  The `Nat` is the number of
token-endpoint requests performed. -/
def ensureRefresh (cache : Option WeixinTok) (now : Int) (resp : TokenResponse) :
    Except String String × Option WeixinTok × Nat :=
  match resp.access_token with
  | some v => (.ok v, some ⟨v, now + resp.expires_in⟩, 1)
  | none => (.error "获取access_token失败", cache, 1)

/-- `WXPublisher.ensure_access_token`. -/
def ensureAccessToken (cache : Option WeixinTok) (now : Int) (resp : TokenResponse) :
    Except String String × Option WeixinTok × Nat :=
  match cache with
  | some t =>
    if now + 60 < t.expiresAt then (.ok t.accessToken, some t, 0)
    else ensureRefresh (some t) now resp
  | none => ensureRefresh none now resp

/-! ## WXPublisher: image upload (`upload_image`, lines 441–463)

`if not image_url:` returns a fixed hard-coded media id without touching the
network; otherwise the image is fetched over HTTP, the access token is
ensured, and the image is multipart-posted to the media endpoint.  A
response carrying any `errcode` key raises.  The network activity is
returned as an explicit effect trace. -/

/-- One network effect of `upload_image`. -/
inductive NetEffect where
  | imageFetch (url : String)
  | tokenRequest
  | mediaUpload
deriving DecidableEq

/-- The media endpoint's JSON response. -/
structure MediaResponse where
  errcode : Option Int
  errmsg : Option String
  media_id : Option String
deriving DecidableEq

/-- The hard-coded media id returned for an empty `image_url` (line 444). -/
def fixedMediaId : String :=
  "SwCSRjrdGJNaWioRQUHzgF68BHFkSlb_f5xlTquvsOSA6Yy0ZRjFo0aW9eS3JJu_"

/-- `WXPublisher.upload_image`, with its network activity made explicit.
`cache`/`now`/`tresp` drive the inner `ensure_access_token` call; `mresp` is
the media endpoint's response.  A missing `errmsg`/`media_id` key would
raise `KeyError` in Python; both are modelled as `.error` marker strings. -/
def uploadImage (imageUrl : String) (cache : Option WeixinTok) (now : Int)
    (tresp : TokenResponse) (mresp : MediaResponse) :
    Except String String × List NetEffect :=
  if imageUrl = "" then (.ok fixedMediaId, [])
  else
    match ensureAccessToken cache now tresp with
    | (.error e, _, n) =>
      (.error e, NetEffect.imageFetch imageUrl :: List.replicate n .tokenRequest)
    | (.ok _, _, n) =>
      let trace :=
        NetEffect.imageFetch imageUrl :: List.replicate n .tokenRequest ++ [.mediaUpload]
      match mresp.errcode with
      | some _ =>
        (.error ("上传图片失败: " ++ (match mresp.errmsg with
          | some m => m
          | none => "KeyError: errmsg")), trace)
      | none =>
        match mresp.media_id with
        | some m => (.ok m, trace)
        | none => (.error "KeyError: media_id", trace)

/-! ## WXPublisher: draft upload response handling

`upload_draft` (lines 373–439).  After assembling and POSTing the payload,
the response handling (lines 432–435) raises on *any* `errcode` key —
including `errcode: 0` — and returns `{"media_id": ...}` only when no
`errcode` key is present. -/

/-- The draft endpoint's JSON response. -/
structure DraftResponse where
  errcode : Option Int
  errmsg : Option String
  media_id : Option String
deriving DecidableEq

/-- The response handling of `upload_draft` (lines 432–435).  A missing
`errmsg`/`media_id` key raises `KeyError` in Python; both are modelled as
`.error` marker strings — either way the call raises. -/
def uploadDraftResult (resp : DraftResponse) : Except String String :=
  match resp.errcode with
  | some _ =>
    .error ("上传草稿失败: " ++ (match resp.errmsg with
      | some m => m
      | none => "KeyError: errmsg"))
  | none =>
    match resp.media_id with
    | some m => .ok m
    | none => .error "KeyError: media_id"

/-! ## WXPublisher: direct publish (`direct_publish`, lines 549–610) -/

/-- The publish endpoint's JSON response. -/
structure PublishResponse where
  errcode : Option Int
  errmsg : Option String
  publish_id : Option String
  msg_data_id : Option String
deriving DecidableEq

/-- The error-code → message table of lines 594–599; any other code keeps the
platform's raw message (`errmsg`, defaulting to `未知错误`). -/
def directPublishErrMsg (code : Int) (raw : String) : String :=
  if code = 53503 then "该草稿未通过发布检查"
  else if code = 53504 then "需前往公众平台官网使用草稿"
  else if code = 53505 then "请手动保存成功后再发表"
  else raw

/-- The response handling of `direct_publish` (lines 589–606): a present and
non-zero `errcode` raises with the mapped message; otherwise the publish job
identifiers are returned (with `''` defaults, as `response_json.get`). -/
def directPublish (resp : PublishResponse) : Except String (String × String) :=
  match resp.errcode with
  | some code =>
    if code ≠ 0 then
      .error ("发布失败 (错误码: " ++ toString code ++ "): "
        ++ directPublishErrMsg code (resp.errmsg.getD "未知错误"))
    else
      .ok (resp.publish_id.getD "", resp.msg_data_id.getD "")
  | none => .ok (resp.publish_id.getD "", resp.msg_data_id.getD "")

/-! ## WXPublisher: publish-status polling (`check_publish_status`, lines 612–678) -/

/-- The status endpoint's JSON response. -/
structure StatusResponse where
  errcode : Option Int
  errmsg : Option String
  publish_status : Option Int
  article_id : Option String
  article_url : Option String
  fail_reason : Option String
deriving DecidableEq

/-- The result dictionary built at lines 667–674. -/
structure StatusResult where
  status : String
  publish_id : String
  publish_status : Int
  article_id : String
  article_url : String
  fail_reason : String
deriving DecidableEq

/-- The `status_map` dictionary of lines 656–663 together with the
`status_map.get(publish_status, "unknown")` default. -/
def statusMap (c : Int) : String :=
  if c = 0 then "published"
  else if c = 1 then "publishing"
  else if c = 2 then "failed_original"
  else if c = 3 then "failed_general"
  else if c = 4 then "failed_audit"
  else if c = 5 then "published_emoji_escaped"
  else "unknown"

/-- The response handling of `check_publish_status` (lines 652–674): a
present non-zero `errcode` raises; otherwise
`publish_status = response_json.get('publish_status', -1)` is mapped through
`status_map` and the result dictionary is returned. -/
def checkPublishStatus (publishId : String) (resp : StatusResponse) :
    Except String StatusResult :=
  match resp.errcode with
  | some c =>
    if c ≠ 0 then
      .error ("查询发布状态失败: " ++ (resp.errmsg.getD "KeyError: errmsg"))
    else
      .ok ⟨statusMap (resp.publish_status.getD (-1)), publishId,
        resp.publish_status.getD (-1), resp.article_id.getD "",
        resp.article_url.getD "", resp.fail_reason.getD ""⟩
  | none =>
    .ok ⟨statusMap (resp.publish_status.getD (-1)), publishId,
      resp.publish_status.getD (-1), resp.article_id.getD "",
      resp.article_url.getD "", resp.fail_reason.getD ""⟩

/-! ## BinancePublisher: login verification

`BinancePublisher._check_login_status` (lines 269–335).  A page is modelled
by the observations the code makes of it: per-selector element count and
first-element visibility, plus the page title and URL.  (The initial
`login_indicators` loop at lines 274–277 only logs and decides nothing.) -/

/-- The DOM observations `_check_login_status` makes of a page. -/
structure Page where
  count : String → Nat
  firstVisible : String → Bool
  title : String
  url : String

/-- The `login_selectors` list of lines 280–285. -/
def loginSelectors : List String :=
  ["button:has-text(\"登录\")",
   "a:has-text(\"登录\")",
   "div:has-text(\"登录\"):not(:has(*))",
   "[href*=\"login\"]"]

/-- The `logged_in_selectors` list of lines 294–302. -/
def loggedInSelectors : List String :=
  ["div.css-1hsz9t1",
   ".UserAvatar",
   "a:has-text(\"个人中心\")",
   "[href*=\"my\"]",
   "img.avatar",
   "div.user-info",
   "[data-testid=\"header-user-icon\"]"]

/-- The content-editor selector of line 311. -/
def editorSelector : String := "div.ProseMirror[contenteditable=\"true\"]"

/-- The generic content-area selector of line 325. -/
def contentAreaSelector : String := ".feed-publish-wrapper, .post-editor, div.dynamic-form"

/-- `elements.count() > 0 and elements.first.is_visible()` for one selector. -/
def visibleHit (p : Page) (sel : String) : Bool :=
  decide (0 < p.count sel) && p.firstVisible sel

/-- A group of selectors fires when some selector in it has a visible first
match (the `for selector in ...` loops, lines 287–291 and 304–308). -/
def anyVisibleHit (p : Page) (sels : List String) : Bool :=
  sels.any (visibleHit p)

/-- Substring containment on character lists (Python `in` on strings). -/
def hasSub : List Char → List Char → Bool
  | _, [] => true
  | [], _ :: _ => false
  | c :: rest, pat => pat.isPrefixOf (c :: rest) || hasSub rest pat

/-- The title/URL keyword check of line 320:
`"登录" in page_title or "login" in current_url.lower()` (ASCII lowering,
which is what the URL check exercises). -/
def loginKeywordHit (title url : String) : Bool :=
  hasSub title.data "登录".data || hasSub (url.data.map Char.toLower) "login".data

/-- `BinancePublisher._check_login_status`: `true` is logged-in. -/
def checkLoginStatus (p : Page) : Bool :=
  if anyVisibleHit p loginSelectors then false
  else if anyVisibleHit p loggedInSelectors then true
  else if 0 < p.count editorSelector then true
  else if loginKeywordHit p.title p.url then false
  else if visibleHit p contentAreaSelector then true
  else false

/-- Modelled from the spec: the ordered heuristic rules of §4.3
LoginVerification — visible login element ⇒ LoggedOut; visible
authenticated-user indicator ⇒ LoggedIn; content-editor element present ⇒
LoggedIn; login keyword in the page title or URL ⇒ LoggedOut; generic
publish/compose surface visible ⇒ LoggedIn; otherwise the LoggedOut
fallback.  Each abstract signal is instantiated with the code's concrete
probe. -/
def specLoginVerification (p : Page) : Bool :=
  if anyVisibleHit p loginSelectors then false
  else if anyVisibleHit p loggedInSelectors then true
  else if 0 < p.count editorSelector then true
  else if loginKeywordHit p.title p.url then false
  else if visibleHit p contentAreaSelector then true
  else false

/-- A page showing a visible login link (every login selector matches and is
visible) and nothing indicating an authenticated user. -/
def loginOnlyPage : Page where
  count := fun s => if loginSelectors.contains s then 1 else 0
  firstVisible := fun s => loginSelectors.contains s
  title := "币安广场"
  url := "https://www.binance.com/zh-CN/square"

/-- A page where only the content-editor element is present (not even
visible) and no login indicator exists. -/
def editorOnlyPage : Page where
  count := fun s => if s = editorSelector then 1 else 0
  firstVisible := fun _ => false
  title := "币安广场"
  url := "https://www.binance.com/zh-CN/square"

/-! ## BinancePublisher: the push state machine

`BinancePublisher.push_to_binance` (lines 47–236).  The Playwright calls are
modelled by the outcome the environment gives each step; a Python exception
is an `Except.error`.  The inner `try` is translated by `attemptBody`
(exceptions propagate to the inner handlers), the inner
`except PlaywrightTimeoutError / except Exception / finally` by
`pushAttempt`, and the outer `try/except` (around `sync_playwright`) by
`pushToBinance`.  The returned `Bool` records whether the `finally` block
attempted `browser.close()` (it does exactly when `browser` was assigned,
i.e. when the launch succeeded). -/

/-- A Python exception inside the browser session: a Playwright timeout or
any other exception, with its message. -/
inductive BErr where
  | timeout (msg : String)
  | other (msg : String)
deriving DecidableEq

/-- The final status of a push result dictionary. -/
inductive PStatus where
  | success
  | error
deriving DecidableEq

/-- The structured result dictionary of `push_to_binance`; `screenshot` is
`some path` exactly when the dictionary carries a `"screenshot"` key. -/
structure PushResult where
  status : PStatus
  message : String
  screenshot : Option String
deriving DecidableEq

/-- The outcome the environment gives each step of a push attempt. -/
structure BrowserWorld where
  playwrightStart : Except String Unit
  launch : Except BErr Unit
  newPage : Except BErr Unit
  goto : Except BErr Unit
  loggedIn : Bool
  editorWait : Except BErr Unit
  setContent : Except BErr Unit
  jsContentNonEmpty : Bool
  typeFallback : Except BErr Unit
  postWait : Except BErr Unit
  postClick : Except BErr Unit
  errorShotPath : String

/-- The body of the inner `try` (lines 72–202): launch → new page → goto →
login check (early `error` return, no exception) → editor wait → content
injection (keystroke fallback when the JS assignment left the editor empty)
→ submit wait → click → fixed settle wait → `success` result.  Any step's
exception propagates. -/
def attemptBody (w : BrowserWorld) : Except BErr PushResult :=
  match w.launch with
  | .error e => .error e
  | .ok _ =>
  match w.newPage with
  | .error e => .error e
  | .ok _ =>
  match w.goto with
  | .error e => .error e
  | .ok _ =>
  if !w.loggedIn then
    .ok ⟨.error, "用户未登录，请先在Chrome浏览器中登录币安账号", none⟩
  else
  match w.editorWait with
  | .error e => .error e
  | .ok _ =>
  match w.setContent with
  | .error e => .error e
  | .ok _ =>
  match (if !w.jsContentNonEmpty then w.typeFallback else .ok ()) with
  | .error e => .error e
  | .ok _ =>
  match w.postWait with
  | .error e => .error e
  | .ok _ =>
  match w.postClick with
  | .error e => .error e
  | .ok _ =>
  .ok ⟨.success, "成功推送到币安社区", none⟩

/-- What `_save_error_screenshot` returns inside the inner handlers: the
saved path when a live `page` exists (launch and new-page both succeeded),
`""` otherwise. -/
def errShot (w : BrowserWorld) : String :=
  if w.launch.isOk && w.newPage.isOk then w.errorShotPath else ""

/-- The inner `try/except/except/finally` (lines 71–229): both handlers
convert the exception to a structured `error` result carrying a screenshot
path; the `finally` attempts `browser.close()` iff the launch succeeded. -/
def pushAttempt (w : BrowserWorld) : PushResult × Bool :=
  let closeAttempted := w.launch.isOk
  match attemptBody w with
  | .ok r => (r, closeAttempted)
  | .error (.timeout m) =>
    (⟨.error, "页面元素等待超时: " ++ m, some (errShot w)⟩, closeAttempted)
  | .error (.other m) =>
    (⟨.error, "推送失败: " ++ m, some (errShot w)⟩, closeAttempted)

/-- `BinancePublisher.push_to_binance`: preprocess the content, then run the
session under the outer `try/except` (lines 54–236), which converts a
failure to start the Playwright context into a structured `error` result
with no screenshot.  The chrome-process conflict checks (lines 59–68) catch
all their own exceptions and only log, so they cannot alter the result. -/
def pushToBinance (content : PyText) (w : BrowserWorld) : PushResult × Bool :=
  let _ := preprocessContent content
  match w.playwrightStart with
  | .ok _ => pushAttempt w
  | .error m => (⟨.error, "连接浏览器失败: " ++ m, none⟩, false)

/-- A page with no login element, no authenticated-user indicator, no
editor, no login keyword and no compose surface: the fail-safe default
applies. -/
def blankPage : Page where
  count := fun _ => 0
  firstVisible := fun _ => false
  title := "币安广场"
  url := "https://www.binance.com/zh-CN/square"

/-- A world in which every session step succeeds. -/
def okWorld : BrowserWorld :=
  ⟨.ok (), .ok (), .ok (), .ok (), true, .ok (), .ok (), true, .ok (), .ok (), .ok (),
   "./data/post_ok.png"⟩

/-- A world in which the editor-visibility wait times out inside the live
page. -/
def editorTimeoutWorld : BrowserWorld :=
  ⟨.ok (), .ok (), .ok (), .ok (), true, .error (.timeout "输入框加载超时"), .ok (), true,
   .ok (), .ok (), .ok (), "./data/error_screenshot.png"⟩

/-! # Claims and proofs -/

/-- C1: with a cached token whose expiry is more than the 60-second safety
margin after `now`, `ensure_access_token` performs zero token-endpoint
requests and returns the cached value with the cache unchanged; with the
cache absent or within the margin, it performs exactly one credential
exchange, replaces the cache with `{value, expiresAt = now + expiresIn}`,
and returns the new value. -/
theorem c1_ensure_access_token (cache : Option WeixinTok) (now : Int) (resp : TokenResponse) :
    (∀ t : WeixinTok, cache = some t → now + 60 < t.expiresAt →
      ensureAccessToken cache now resp = (.ok t.accessToken, some t, 0))
    ∧ (tokenCacheValid cache now = false → ∀ v : String, resp.access_token = some v →
      ensureAccessToken cache now resp = (.ok v, some ⟨v, now + resp.expires_in⟩, 1)) := by
  constructor
  · rintro t rfl h
    simp [ensureAccessToken, h]
  · intro hmiss v hv
    cases cache with
    | none => simp [ensureAccessToken, ensureRefresh, hv]
    | some t =>
      simp only [tokenCacheValid, decide_eq_false_iff_not] at hmiss
      simp [ensureAccessToken, ensureRefresh, hv, hmiss]

/-- Witness for C1: a concrete cache hit (expiry 100 s, margin 60 s, now 0)
returns the cached value with zero requests, and a concrete cache miss
performs one exchange and installs `{“fresh”, 0 + 7200}`. -/
theorem c1_ensure_access_token_witness :
    ensureAccessToken (some ⟨"cached", 100⟩) 0 ⟨some "fresh", 7200⟩ =
      (.ok "cached", some ⟨"cached", 100⟩, 0)
    ∧ ensureAccessToken none 0 ⟨some "fresh", 7200⟩ =
      (.ok "fresh", some ⟨"fresh", 7200⟩, 1) :=
  ⟨(c1_ensure_access_token (some ⟨"cached", 100⟩) 0 ⟨some "fresh", 7200⟩).1
      ⟨"cached", 100⟩ rfl (by decide),
   (c1_ensure_access_token none 0 ⟨some "fresh", 7200⟩).2 (by decide) "fresh" rfl⟩

/-- C4: `direct_publish` maps error code 53503 to the did-not-pass-publish-
checks message, 53504 to the must-use-the-platform-web-console message,
53505 to the must-save-manually-first message; any other non-zero code
raises a generic error carrying the raw code and the platform's `errmsg`;
`errcode` 0 or absent raises nothing and returns the publish job ids. -/
theorem c4_direct_publish_error_table (resp : PublishResponse) :
    (resp.errcode = some 53503 →
      directPublish resp = .error "发布失败 (错误码: 53503): 该草稿未通过发布检查")
    ∧ (resp.errcode = some 53504 →
      directPublish resp = .error "发布失败 (错误码: 53504): 需前往公众平台官网使用草稿")
    ∧ (resp.errcode = some 53505 →
      directPublish resp = .error "发布失败 (错误码: 53505): 请手动保存成功后再发表")
    ∧ (∀ c : Int, resp.errcode = some c → c ≠ 0 → c ≠ 53503 → c ≠ 53504 → c ≠ 53505 →
      directPublish resp = .error ("发布失败 (错误码: " ++ toString c ++ "): "
        ++ resp.errmsg.getD "未知错误"))
    ∧ (resp.errcode = some 0 →
      directPublish resp = .ok (resp.publish_id.getD "", resp.msg_data_id.getD ""))
    ∧ (resp.errcode = none →
      directPublish resp = .ok (resp.publish_id.getD "", resp.msg_data_id.getD "")) := by
  refine ⟨?_, ?_, ?_, ?_, ?_, ?_⟩
  · intro h; simp [directPublish, h, directPublishErrMsg]; rfl
  · intro h; simp [directPublish, h, directPublishErrMsg]; rfl
  · intro h; simp [directPublish, h, directPublishErrMsg]; rfl
  · intro c h h0 h3 h4 h5; simp [directPublish, h, h0, directPublishErrMsg, h3, h4, h5]
  · intro h; simp [directPublish, h]
  · intro h; simp [directPublish, h]

/-- Witness for C4: concrete responses with each mapped code, a generic
code, code 0, and no code. -/
theorem c4_direct_publish_error_table_witness :
    directPublish ⟨some 53503, some "platform msg", none, none⟩ =
      .error "发布失败 (错误码: 53503): 该草稿未通过发布检查"
    ∧ directPublish ⟨some 40001, some "invalid credential", none, none⟩ =
      .error "发布失败 (错误码: 40001): invalid credential"
    ∧ directPublish ⟨some 0, none, some "PUB1", some "MSG1"⟩ = .ok ("PUB1", "MSG1") :=
  ⟨(c4_direct_publish_error_table ⟨some 53503, some "platform msg", none, none⟩).1 rfl,
   (c4_direct_publish_error_table ⟨some 40001, some "invalid credential", none, none⟩).2.2.2.1
      40001 rfl (by decide) (by decide) (by decide) (by decide),
   (c4_direct_publish_error_table ⟨some 0, none, some "PUB1", some "MSG1"⟩).2.2.2.2.1 rfl⟩

/-- C5: `check_publish_status` maps `publish_status` 0→published,
1→publishing, 2→failed_original, 3→failed_general, 4→failed_audit,
5→published_emoji_escaped, and any other value — or an absent field
(defaulted to −1) — to `unknown`, which is none of the terminal
success/failure statuses. -/
theorem c5_check_publish_status :
    (statusMap 0 = "published" ∧ statusMap 1 = "publishing"
      ∧ statusMap 2 = "failed_original" ∧ statusMap 3 = "failed_general"
      ∧ statusMap 4 = "failed_audit" ∧ statusMap 5 = "published_emoji_escaped")
    ∧ (∀ c : Int, c ≠ 0 → c ≠ 1 → c ≠ 2 → c ≠ 3 → c ≠ 4 → c ≠ 5 → statusMap c = "unknown")
    ∧ (∀ (pid : String) (resp : StatusResponse), resp.errcode = none ∨ resp.errcode = some 0 →
      checkPublishStatus pid resp =
        .ok ⟨statusMap (resp.publish_status.getD (-1)), pid, resp.publish_status.getD (-1),
          resp.article_id.getD "", resp.article_url.getD "", resp.fail_reason.getD ""⟩)
    ∧ (∀ (pid : String) (resp : StatusResponse), resp.errcode = none →
        resp.publish_status = none →
      ∃ r : StatusResult, checkPublishStatus pid resp = .ok r ∧ r.status = "unknown")
    ∧ ("unknown" ≠ "published" ∧ "unknown" ≠ "publishing" ∧ "unknown" ≠ "failed_original"
      ∧ "unknown" ≠ "failed_general" ∧ "unknown" ≠ "failed_audit"
      ∧ "unknown" ≠ "published_emoji_escaped") := by
  refine ⟨by decide, ?_, ?_, ?_, by decide⟩
  · intro c h0 h1 h2 h3 h4 h5
    simp [statusMap, h0, h1, h2, h3, h4, h5]
  · rintro pid resp (h | h) <;> simp [checkPublishStatus, h]
  · intro pid resp he hp
    exact ⟨⟨statusMap (resp.publish_status.getD (-1)), pid, resp.publish_status.getD (-1),
      resp.article_id.getD "", resp.article_url.getD "", resp.fail_reason.getD ""⟩,
      by simp [checkPublishStatus, he], by rw [hp]; rfl⟩

/-- Witness for C5: `publish_status: 4` yields `failed_audit`; the
unrecognized code 99 and an absent field both yield `unknown`. -/
theorem c5_check_publish_status_witness :
    checkPublishStatus "PUB1" ⟨none, none, some 4, some "A", some "http://u", none⟩ =
      .ok ⟨"failed_audit", "PUB1", 4, "A", "http://u", ""⟩
    ∧ statusMap 99 = "unknown"
    ∧ checkPublishStatus "PUB1" ⟨none, none, some 99, none, none, none⟩ =
      .ok ⟨"unknown", "PUB1", 99, "", "", ""⟩ :=
  ⟨(c5_check_publish_status.2.2.1 "PUB1" ⟨none, none, some 4, some "A", some "http://u", none⟩
      (Or.inl rfl)).trans (by rfl),
   c5_check_publish_status.2.1 99 (by decide) (by decide) (by decide) (by decide) (by decide)
      (by decide),
   (c5_check_publish_status.2.2.1 "PUB1" ⟨none, none, some 99, none, none, none⟩
      (Or.inl rfl)).trans (by rfl)⟩

/-- C9: `upload_draft` raises on every response whose JSON body contains the
`errcode` key — even `errcode: 0` — and returns a media id only when no
`errcode` key is present; `direct_publish`, by contrast, treats
`errcode: 0` as success. -/
theorem c9_upload_draft_errcode :
    (∀ (resp : DraftResponse) (c : Int), resp.errcode = some c →
      ∀ m : String, uploadDraftResult resp ≠ .ok m)
    ∧ (∀ resp : DraftResponse, resp.errcode = some 0 →
      uploadDraftResult resp = .error ("上传草稿失败: " ++ (match resp.errmsg with
        | some m => m
        | none => "KeyError: errmsg")))
    ∧ (∀ (resp : DraftResponse) (m : String), uploadDraftResult resp = .ok m →
      resp.errcode = none ∧ resp.media_id = some m)
    ∧ (∀ resp : PublishResponse, resp.errcode = some 0 →
      directPublish resp = .ok (resp.publish_id.getD "", resp.msg_data_id.getD "")) := by
  refine ⟨?_, ?_, ?_, ?_⟩
  · intro resp c h m
    simp [uploadDraftResult, h]
  · intro resp h
    simp [uploadDraftResult, h]
  · intro resp m h
    cases he : resp.errcode with
    | some c => simp [uploadDraftResult, he] at h
    | none =>
      cases hm : resp.media_id with
      | some v => simp [uploadDraftResult, he, hm] at h; simp [h, hm]
      | none => simp [uploadDraftResult, he, hm] at h
  · intro resp h
    simp [directPublish, h]

/-- Witness for C9: the concrete response `{errcode: 0, errmsg: "ok"}` makes
`upload_draft` raise, while the same code makes `direct_publish` succeed;
a response with only `media_id` returns it. -/
theorem c9_upload_draft_errcode_witness :
    uploadDraftResult ⟨some 0, some "ok", some "MEDIA9"⟩ = .error "上传草稿失败: ok"
    ∧ (⟨none, none, some "MEDIA9"⟩ : DraftResponse).errcode = none
    ∧ directPublish ⟨some 0, some "ok", some "P", some "M"⟩ = .ok ("P", "M") :=
  ⟨c9_upload_draft_errcode.2.1 ⟨some 0, some "ok", some "MEDIA9"⟩ rfl,
   (c9_upload_draft_errcode.2.2.1 ⟨none, none, some "MEDIA9"⟩ "MEDIA9" rfl).1,
   c9_upload_draft_errcode.2.2.2 ⟨some 0, some "ok", some "P", some "M"⟩ rfl⟩

/-- C2: `_check_login_status` evaluates its heuristics in exactly the spec's
precedence order and stops at the first definitive match — visible login
element ⇒ LoggedOut, visible authenticated-user indicator ⇒ LoggedIn,
content-editor element present ⇒ LoggedIn, login keyword in title/URL ⇒
LoggedOut, visible compose surface ⇒ LoggedIn, otherwise the LoggedOut
fail-safe; a page with a visible login link and no user indicator yields
LoggedOut, and a page with only the editor element present yields LoggedIn. -/
theorem c2_login_verification :
    (∀ p : Page, checkLoginStatus p = specLoginVerification p)
    ∧ (∀ p : Page, anyVisibleHit p loginSelectors = true → checkLoginStatus p = false)
    ∧ (∀ p : Page, anyVisibleHit p loginSelectors = false →
        anyVisibleHit p loggedInSelectors = true → checkLoginStatus p = true)
    ∧ (∀ p : Page, anyVisibleHit p loginSelectors = false →
        anyVisibleHit p loggedInSelectors = false → 0 < p.count editorSelector →
        checkLoginStatus p = true)
    ∧ (∀ p : Page, anyVisibleHit p loginSelectors = false →
        anyVisibleHit p loggedInSelectors = false → p.count editorSelector = 0 →
        loginKeywordHit p.title p.url = true → checkLoginStatus p = false)
    ∧ (∀ p : Page, anyVisibleHit p loginSelectors = false →
        anyVisibleHit p loggedInSelectors = false → p.count editorSelector = 0 →
        loginKeywordHit p.title p.url = false → visibleHit p contentAreaSelector = true →
        checkLoginStatus p = true)
    ∧ (∀ p : Page, anyVisibleHit p loginSelectors = false →
        anyVisibleHit p loggedInSelectors = false → p.count editorSelector = 0 →
        loginKeywordHit p.title p.url = false → visibleHit p contentAreaSelector = false →
        checkLoginStatus p = false)
    ∧ checkLoginStatus loginOnlyPage = false
    ∧ checkLoginStatus editorOnlyPage = true := by
  refine ⟨fun p => rfl, ?_, ?_, ?_, ?_, ?_, ?_, by decide, by decide⟩
  · intro p h1; simp [checkLoginStatus, h1]
  · intro p h1 h2; simp [checkLoginStatus, h1, h2]
  · intro p h1 h2 h3; simp [checkLoginStatus, h1, h2, h3]
  · intro p h1 h2 h3 h4; simp [checkLoginStatus, h1, h2, h3, h4]
  · intro p h1 h2 h3 h4 h5; simp [checkLoginStatus, h1, h2, h3, h4, h5]
  · intro p h1 h2 h3 h4 h5; simp [checkLoginStatus, h1, h2, h3, h4, h5]

/-- Witness for C2: the fail-safe default fires on a page with no signal at
all. -/
theorem c2_login_verification_witness :
    checkLoginStatus blankPage = false :=
  c2_login_verification.2.2.2.2.2.2.1 blankPage (by decide) (by decide) (by decide)
    (by decide) (by decide)

/-! ### Push-machine helper lemmas -/

/-- The inner `finally` attempts `browser.close()` exactly when the launch
succeeded, whatever the attempt body did. -/
theorem pushAttempt_snd (w : BrowserWorld) : (pushAttempt w).2 = w.launch.isOk := by
  cases hab : attemptBody w with
  | ok r => simp [pushAttempt, hab]
  | error e => cases e <;> simp [pushAttempt, hab]

/-- A boolean-ok `Except _ Unit` value is `.ok ()`. -/
theorem exceptUnit_eq_ok {ε : Type} {e : Except ε Unit} (h : e.isOk = true) : e = .ok () := by
  cases e with
  | ok u => cases u; rfl
  | error x => simp [Except.isOk, Except.toBool] at h

/-- The attempt body only ever returns two non-exception results: the
not-logged-in error dictionary or the success dictionary. -/
theorem attemptBody_ok_cases (w : BrowserWorld) (r : PushResult)
    (h : attemptBody w = .ok r) :
    r = ⟨.error, "用户未登录，请先在Chrome浏览器中登录币安账号", none⟩
    ∨ r = ⟨.success, "成功推送到币安社区", none⟩ := by
  obtain ⟨ps, l, np, g, li, ew, sc, js, tf, pw, pc, shot⟩ := w
  unfold attemptBody at h
  cases js
  all_goals repeat' split at h
  all_goals simp_all

/-- The attempt body yields the success result exactly when every session
step succeeded: launch, page creation, navigation, a logged-in session, the
editor wait, the JS content assignment (or its keystroke fallback), and the
submit-control wait and click. -/
theorem attemptBody_success_iff (w : BrowserWorld) :
    attemptBody w = .ok ⟨.success, "成功推送到币安社区", none⟩ ↔
      (w.launch.isOk = true ∧ w.newPage.isOk = true ∧ w.goto.isOk = true
        ∧ w.loggedIn = true ∧ w.editorWait.isOk = true ∧ w.setContent.isOk = true
        ∧ (w.jsContentNonEmpty = true ∨ w.typeFallback.isOk = true)
        ∧ w.postWait.isOk = true ∧ w.postClick.isOk = true) := by
  obtain ⟨ps, l, np, g, li, ew, sc, js, tf, pw, pc, shot⟩ := w
  constructor
  · intro h
    unfold attemptBody at h
    cases js
    all_goals repeat' split at h
    all_goals simp_all [Except.isOk, Except.toBool]
  · rintro ⟨h1, h2, h3, h4, h5, h6, h7, h8, h9⟩
    subst h4
    obtain rfl := exceptUnit_eq_ok h1
    obtain rfl := exceptUnit_eq_ok h2
    obtain rfl := exceptUnit_eq_ok h3
    obtain rfl := exceptUnit_eq_ok h5
    obtain rfl := exceptUnit_eq_ok h6
    obtain rfl := exceptUnit_eq_ok h8
    obtain rfl := exceptUnit_eq_ok h9
    rcases h7 with h7 | h7
    · subst h7; rfl
    · obtain rfl := exceptUnit_eq_ok h7
      cases js <;> rfl

/-- C3: the browser path never raises to its caller — every Python raise is
routed through the translated handlers, so `push_to_binance` always returns
a structured result; its status is success exactly when the Playwright
context started and every session step succeeded; an exception thrown while
a session was live puts the diagnostic screenshot path into the result; and
the guaranteed-cleanup step attempts `browser.close()` exactly when a
browser was opened, regardless of which phase aborted. -/
theorem c3_push_structured (content : PyText) (w : BrowserWorld) :
    ((pushToBinance content w).1.status = .success ∨ (pushToBinance content w).1.status = .error)
    ∧ ((pushToBinance content w).2 = (w.playwrightStart.isOk && w.launch.isOk))
    ∧ ((pushToBinance content w).1.status = .success ↔
        (w.playwrightStart.isOk = true
          ∧ attemptBody w = .ok ⟨.success, "成功推送到币安社区", none⟩))
    ∧ (attemptBody w = .ok ⟨.success, "成功推送到币安社区", none⟩ ↔
        (w.launch.isOk = true ∧ w.newPage.isOk = true ∧ w.goto.isOk = true
          ∧ w.loggedIn = true ∧ w.editorWait.isOk = true ∧ w.setContent.isOk = true
          ∧ (w.jsContentNonEmpty = true ∨ w.typeFallback.isOk = true)
          ∧ w.postWait.isOk = true ∧ w.postClick.isOk = true))
    ∧ (∀ e : BErr, w.playwrightStart = .ok () → attemptBody w = .error e →
        (pushToBinance content w).1.screenshot = some (errShot w)) := by
  refine ⟨?_, ?_, ?_, attemptBody_success_iff w, ?_⟩
  · cases hs : (pushToBinance content w).1.status
    · exact Or.inl rfl
    · exact Or.inr rfl
  · cases hps : w.playwrightStart with
    | ok u => cases u; simp [pushToBinance, hps, pushAttempt_snd, Except.isOk, Except.toBool]
    | error m => simp [pushToBinance, hps, Except.isOk, Except.toBool]
  · cases hps : w.playwrightStart with
    | error m => simp [pushToBinance, hps, Except.isOk, Except.toBool]
    | ok u =>
      cases u
      cases hab : attemptBody w with
      | ok r =>
        rcases attemptBody_ok_cases w r hab with hr | hr <;>
          subst hr <;> simp [pushToBinance, hps, pushAttempt, hab, Except.isOk, Except.toBool]
      | error e =>
        cases e <;> simp [pushToBinance, hps, pushAttempt, hab, Except.isOk, Except.toBool]
  · intro e hps hab
    cases e <;> simp [pushToBinance, hps, pushAttempt, hab]

/-- Witness for C3: in a world where the editor wait times out inside the
live page, the result is a structured error carrying the screenshot path;
and in the all-success world the push succeeds. -/
theorem c3_push_structured_witness :
    (pushToBinance (.str "看涨".data) editorTimeoutWorld).1.screenshot =
      some (errShot editorTimeoutWorld)
    ∧ (pushToBinance (.str "看涨".data) okWorld).1.status = .success :=
  ⟨(c3_push_structured (.str "看涨".data) editorTimeoutWorld).2.2.2.2
      (.timeout "输入框加载超时") rfl rfl,
   ((c3_push_structured (.str "看涨".data) okWorld).2.2.1).mpr
      ⟨rfl, ((c3_push_structured (.str "看涨".data) okWorld).2.2.2.1).mpr
        ⟨rfl, rfl, rfl, rfl, rfl, rfl, Or.inl rfl, rfl, rfl⟩⟩⟩

/-! ### Normalizer helper lemmas -/

/-- On a unicode string, `_preprocess_article` is HTML-unescape followed by
the control-character filter (the empty string short-circuits to `""`, which
coincides). -/
theorem preprocessArticle_str (s : List Char) :
    preprocessArticle (.str s) = stripControl (htmlUnescape s) := by
  cases s with
  | nil => rfl
  | cons c cs => rfl

/-- Same computation for `BinancePublisher._preprocess_content`. -/
theorem preprocessContent_str (s : List Char) :
    preprocessContent (.str s) = stripControl (htmlUnescape s) := by
  cases s with
  | nil => rfl
  | cons c cs => rfl

/-- The CPython early return: text without an ampersand is left unchanged by
`html.unescape`. -/
theorem htmlUnescape_of_no_amp {s : List Char} (h : ampChar ∉ s) :
    htmlUnescape s = s := by
  simp [htmlUnescape, List.contains, h]

/-- The control-character filter keeps ampersands, so it preserves
ampersand-freeness. -/
theorem no_amp_stripControl {s : List Char} (h : ampChar ∉ s) :
    ampChar ∉ stripControl s := by
  intro hmem
  exact h (List.mem_filter.mp hmem).1

/-- The control-character filter is idempotent. -/
theorem stripControl_idem (s : List Char) :
    stripControl (stripControl s) = stripControl s :=
  List.filter_eq_self.mpr (fun _ ha => (List.mem_filter.mp ha).2)

/-- C6: the repository's preprocessors never reach their bytes-decoding
fallback chain: `str(x)` runs before the `isinstance(x, bytes)` check, so a
bytes value is coerced to its Python repr string.  On the UTF-8 bytes of
`中` (`b'\xe4\xb8\xad'`), both preprocessors return the repr text
`b'\xe4\xb8\xad'` — exactly the repr-style string the claim says is never
produced — instead of the decoded `中`. -/
theorem c6_bytes_input_yields_repr :
    preprocessArticle (.bytes [228, 184, 173]) = pyReprBytes [228, 184, 173]
    ∧ preprocessContent (.bytes [228, 184, 173]) = pyReprBytes [228, 184, 173]
    ∧ utf8Decode [228, 184, 173] = some ['中']
    ∧ pyReprBytes [228, 184, 173] =
        [Char.ofNat 98, squoteChar, bslashChar, Char.ofNat 120, Char.ofNat 101, Char.ofNat 52,
         bslashChar, Char.ofNat 120, Char.ofNat 98, Char.ofNat 56,
         bslashChar, Char.ofNat 120, Char.ofNat 97, Char.ofNat 100, squoteChar]
    ∧ preprocessArticle (.bytes [228, 184, 173]) ≠ ['中'] := by
  refine ⟨by decide, by decide, by decide, by decide, by decide⟩

/-- C7 counterexample: `normalize` does not, on every text, remove exactly
the disallowed control characters while preserving every other character:
HTML unescaping happens first.  On `"&lt;" ++ [U+0001]` the claim predicts
`"&lt;"` (only U+0001 removed), but `_preprocess_article` returns `"<"`. -/
theorem c7_counterexample :
    Char.ofNat 1 ∈ ("&lt;".data ++ [Char.ofNat 1])
    ∧ keepChar (Char.ofNat 1) = false
    ∧ ("&lt;".data ++ [Char.ofNat 1]).filter keepChar = "&lt;".data
    ∧ preprocessArticle (.str ("&lt;".data ++ [Char.ofNat 1])) = "<".data
    ∧ preprocessArticle (.str ("&lt;".data ++ [Char.ofNat 1])) ≠
        ("&lt;".data ++ [Char.ofNat 1]).filter keepChar := by
  refine ⟨by decide, by decide, by decide, by decide, by decide⟩

/-- C7 amended: `normalize` removes exactly the control characters below
0x20 other than newline/tab/carriage-return *from the HTML-unescaped text*,
preserving every other character of the unescaped text and their relative
order; on text containing no ampersand (hence no HTML entity) this is
exactly the original claim. -/
theorem c7_strip_control (s : List Char) :
    preprocessArticle (.str s) = (htmlUnescape s).filter keepChar
    ∧ (preprocessArticle (.str s)).Sublist (htmlUnescape s)
    ∧ (∀ c : Char, keepChar c = false → c ∉ preprocessArticle (.str s))
    ∧ (∀ c : Char, keepChar c = true →
        (preprocessArticle (.str s)).count c = (htmlUnescape s).count c)
    ∧ (ampChar ∉ s → preprocessArticle (.str s) = s.filter keepChar) := by
  refine ⟨preprocessArticle_str s, ?_, ?_, ?_, ?_⟩
  · rw [preprocessArticle_str s]
    exact List.filter_sublist _
  · intro c hc hmem
    rw [preprocessArticle_str s] at hmem
    have := (List.mem_filter.mp hmem).2
    rw [hc] at this
    exact Bool.false_ne_true this
  · intro c hc
    rw [preprocessArticle_str s]
    exact List.count_filter hc
  · intro hamp
    rw [preprocessArticle_str s, htmlUnescape_of_no_amp hamp]
    rfl

/-- Witness for C7 (amended): the ampersand-free text `"a\x01b"` maps to
`"ab"`, removing exactly the control character. -/
theorem c7_strip_control_witness :
    preprocessArticle (.str (Char.ofNat 97 :: Char.ofNat 1 :: [Char.ofNat 98])) =
      (Char.ofNat 97 :: Char.ofNat 1 :: [Char.ofNat 98]).filter keepChar
    ∧ (Char.ofNat 97 :: Char.ofNat 1 :: [Char.ofNat 98]).filter keepChar =
      [Char.ofNat 97, Char.ofNat 98] :=
  ⟨(c7_strip_control (Char.ofNat 97 :: Char.ofNat 1 :: [Char.ofNat 98])).2.2.2.2 (by decide),
   by decide⟩

/-- C8: both preprocessors are idempotent on already-plain unicode text —
text carrying no ampersand (hence no HTML entity to rewrite). -/
theorem c8_normalize_idempotent (s : List Char) (h : ampChar ∉ s) :
    preprocessArticle (.str (preprocessArticle (.str s))) = preprocessArticle (.str s)
    ∧ preprocessContent (.str (preprocessContent (.str s))) = preprocessContent (.str s) := by
  have hstrip : ampChar ∉ stripControl s := no_amp_stripControl h
  constructor
  · rw [preprocessArticle_str s, htmlUnescape_of_no_amp h, preprocessArticle_str _,
      htmlUnescape_of_no_amp hstrip, stripControl_idem]
  · rw [preprocessContent_str s, htmlUnescape_of_no_amp h, preprocessContent_str _,
      htmlUnescape_of_no_amp hstrip, stripControl_idem]

/-- Witness for C8: concrete plain text (with a control character and CJK
characters, but no entity). -/
theorem c8_normalize_idempotent_witness :
    preprocessArticle (.str (preprocessArticle (.str ("看涨 BTC".data ++ [Char.ofNat 7])))) =
      preprocessArticle (.str ("看涨 BTC".data ++ [Char.ofNat 7]))
    ∧ preprocessContent (.str (preprocessContent (.str ("看涨 BTC".data ++ [Char.ofNat 7])))) =
      preprocessContent (.str ("看涨 BTC".data ++ [Char.ofNat 7])) :=
  c8_normalize_idempotent ("看涨 BTC".data ++ [Char.ofNat 7]) (by decide)

/-- C10 counterexample: with a warm token cache (`expiresAt` far in the
future), `upload_image` on a non-empty URL performs the image fetch and the
media upload but **no** credential exchange against the token endpoint —
refuting "a non-empty image_url always triggers … a token exchange". -/
theorem c10_upload_image_counterexample :
    (uploadImage "http://x/img.jpg" (some ⟨"cached-token", 100000⟩) 0 ⟨some "fresh", 7200⟩
      ⟨none, none, some "MEDIA1"⟩).2 = [.imageFetch "http://x/img.jpg", .mediaUpload]
    ∧ NetEffect.tokenRequest ∉
      (uploadImage "http://x/img.jpg" (some ⟨"cached-token", 100000⟩) 0 ⟨some "fresh", 7200⟩
        ⟨none, none, some "MEDIA1"⟩).2 := by
  refine ⟨by rfl, by decide⟩

/-- C10 amended: an empty (falsy) `image_url` returns the fixed hard-coded
media id with no network activity at all; a non-empty `image_url` always
triggers the HTTP fetch of the image and then the ensure-access-token step —
which performs a credential exchange exactly when no valid cached token
exists — before the media upload. -/
theorem c10_upload_image (url : String) (cache : Option WeixinTok) (now : Int)
    (tresp : TokenResponse) (mresp : MediaResponse) :
    (uploadImage "" cache now tresp mresp = (.ok fixedMediaId, []))
    ∧ (url ≠ "" → tokenCacheValid cache now = true →
      (uploadImage url cache now tresp mresp).2 = [.imageFetch url, .mediaUpload])
    ∧ (url ≠ "" → tokenCacheValid cache now = false → tresp.access_token.isSome = true →
      (uploadImage url cache now tresp mresp).2 = [.imageFetch url, .tokenRequest, .mediaUpload])
    ∧ (url ≠ "" → tokenCacheValid cache now = false → tresp.access_token = none →
      (uploadImage url cache now tresp mresp).2 = [.imageFetch url, .tokenRequest]) := by
  refine ⟨by simp [uploadImage], ?_, ?_, ?_⟩
  · intro hu hc
    cases cache with
    | none => simp [tokenCacheValid] at hc
    | some t =>
      simp only [tokenCacheValid, decide_eq_true_eq] at hc
      cases hm : mresp.errcode with
      | some c =>
        simp [uploadImage, hu, ensureAccessToken, hc, hm]
      | none =>
        cases hmid : mresp.media_id <;>
          simp [uploadImage, hu, ensureAccessToken, hc, hm, hmid]
  · intro hu hc ht
    cases hv : tresp.access_token with
    | none => simp [hv] at ht
    | some v =>
      cases cache with
      | none =>
        cases hm : mresp.errcode with
        | some c => simp [uploadImage, hu, ensureAccessToken, ensureRefresh, hv, hm]
        | none =>
          cases hmid : mresp.media_id <;>
            simp [uploadImage, hu, ensureAccessToken, ensureRefresh, hv, hm, hmid]
      | some t =>
        simp only [tokenCacheValid, decide_eq_false_iff_not] at hc
        cases hm : mresp.errcode with
        | some c => simp [uploadImage, hu, ensureAccessToken, ensureRefresh, hv, hm, hc]
        | none =>
          cases hmid : mresp.media_id <;>
            simp [uploadImage, hu, ensureAccessToken, ensureRefresh, hv, hm, hmid, hc]
  · intro hu hc hv
    cases cache with
    | none => simp [uploadImage, hu, ensureAccessToken, ensureRefresh, hv]
    | some t =>
      simp only [tokenCacheValid, decide_eq_false_iff_not] at hc
      simp [uploadImage, hu, ensureAccessToken, ensureRefresh, hv, hc]

/-- Witness for C10 (amended): concrete empty-URL, warm-cache and cold-cache
calls. -/
theorem c10_upload_image_witness :
    uploadImage "" none 0 ⟨some "fresh", 7200⟩ ⟨none, none, some "M"⟩ = (.ok fixedMediaId, [])
    ∧ (uploadImage "http://x/a.jpg" (some ⟨"tok", 100000⟩) 0 ⟨some "fresh", 7200⟩
        ⟨none, none, some "M"⟩).2 = [.imageFetch "http://x/a.jpg", .mediaUpload]
    ∧ (uploadImage "http://x/a.jpg" none 0 ⟨some "fresh", 7200⟩ ⟨none, none, some "M"⟩).2 =
        [.imageFetch "http://x/a.jpg", .tokenRequest, .mediaUpload] :=
  ⟨(c10_upload_image "" none 0 ⟨some "fresh", 7200⟩ ⟨none, none, some "M"⟩).1,
   (c10_upload_image "http://x/a.jpg" (some ⟨"tok", 100000⟩) 0 ⟨some "fresh", 7200⟩
      ⟨none, none, some "M"⟩).2.1 (by decide) (by decide),
   (c10_upload_image "http://x/a.jpg" none 0 ⟨some "fresh", 7200⟩
      ⟨none, none, some "M"⟩).2.2.1 (by decide) (by decide) rfl⟩

end CMarket
